import Mathlib

set_option maxRecDepth 8000

/-!
Verification of the mobile-game agent loop ("Andrey").

This file shallowly embeds the parts of the program that the specification
talks about:

* `src/andrey/agent.py`   — the agentic control loop (`AgentLoop`)
* `src/andrey/device.py`  — coordinate validation and device dispatch
* `src/andrey/vision.py`  — conversation management and image trimming
* `mobile_agent/vision_analyzer.py` — grid / model-space coordinate resolution

Machine integers are modelled as `Int` / `Nat` (Python integers are
unbounded), Python floats as `Rat` (only linear arithmetic and comparisons
are performed on them in the embedded code), and Python dict-based records
as structures with `Option` fields whose `.getD` mirrors `dict.get(key,
default)`.  Wall-clock time does not influence any of the verified control
flow except as an iteration bound, so the stabilization timeout is embedded
as a maximal number of polls, and `time.sleep` calls are dropped.
-/

namespace Andrey

/-- Single-quote character, used when embedding Python log strings that
quote an element description. -/
def sq : String := String.mk [Char.ofNat 39]

/-! ### Screen stabilization

Embeds `AgentLoop._capture_stable_screenshot` (agent.py lines 427-455).
The real function polls `self._device.screenshot()` at a fixed interval
until the timeout elapses; a frame source is abstracted as the stream of
hashes `hashes : Nat → Nat` of the successive captures
(`_screenshot_hash` is deterministic, so polling a screenshot and hashing
it is one oracle call), and the timeout as the maximal number of polls
`fuel`.  The result is the 1-based number of polls made when the function
returns early, or `none` when the loop times out. -/

/-- Loop body of `_capture_stable_screenshot`: `prev` is `prev_hash`,
`stableCount` is `stable_count`, `i` the number of polls already made. -/
def stabilizeGo (hashes : Nat → Nat) : Nat → Option Nat → Nat → Nat → Option Nat
  | 0, _, _, _ => none
  | fuel + 1, prev, stableCount, i =>
    let current := hashes i
    if prev = some current then
      if 2 ≤ stableCount + 1 then some (i + 1)
      else stabilizeGo hashes fuel (some current) (stableCount + 1) (i + 1)
    else
      stabilizeGo hashes fuel (some current) 0 (i + 1)

/-- Number of polls after which `_capture_stable_screenshot` returns a
stable frame (`none` = stabilization timed out). -/
def stabilizePolls (hashes : Nat → Nat) (maxPolls : Nat) : Option Nat :=
  stabilizeGo hashes maxPolls none 0 0

/-- The frame source of claim C1: captures 1 and 2 hash to `1`, every
later capture hashes to `2`. -/
def hashesC1 : Nat → Nat := fun n => if n < 2 then 1 else 2

/-! ### Coordinate validation (device.py)

Embeds `DeviceManager._validate_coordinates` (device.py lines 138-159) and
`DeviceManager.execute_action` (lines 93-136).  `GameAction` mirrors the
pydantic model in models.py; the primitives invoked on the underlying
`adbutils` device are reified as `DeviceCall` values, passing exactly the
(optional) field values the Python code passes. -/

inductive ActionType
  | tap
  | swipe
  | longPress
  | key
  | typeText
  | wait
  | gameOver
deriving DecidableEq, Repr

/-- `models.GameAction` (models.py lines 19-38).  The pydantic validator
rejecting negative coordinates at construction time is not needed for any
claim and is not embedded. -/
structure GameAction where
  action : ActionType
  x : Option ℤ := none
  y : Option ℤ := none
  x2 : Option ℤ := none
  y2 : Option ℤ := none
  duration : Option ℚ := none
  key : Option String := none
  text : Option String := none
  reasoning : String := ""
deriving DecidableEq, Repr

/-- `models.ScreenInfo` (width/height in pixels). -/
structure ScreenInfo where
  width : ℕ
  height : ℕ
  rotation : ℕ := 0
deriving DecidableEq, Repr

/-- One primitive call on the underlying adb device object. -/
inductive DeviceCall
  | click (x y : Option ℤ)
  | swipe (x1 y1 x2 y2 : Option ℤ) (duration : ℚ)
  | keyevent (code : Option String)
  | sendKeys (text : Option String)
deriving DecidableEq, Repr

/-- Python `clamp(val, max_val) = max(0, min(val, max_val))` from
`_validate_coordinates`; note the upper clamp bound is the full screen
dimension, not `dimension - 1`. -/
def clampCoord (val : ℤ) (maxVal : ℕ) : ℤ :=
  max 0 (min val (maxVal : ℤ))

/-- `DeviceManager._validate_coordinates` (device.py lines 138-159):
clamps each present coordinate of the action in place, x/x2 against the
screen width and y/y2 against the screen height. -/
def validateCoordinates (si : ScreenInfo) (a : GameAction) : GameAction :=
  { a with
    x := a.x.map (fun v => clampCoord v si.width)
    y := a.y.map (fun v => clampCoord v si.height)
    x2 := a.x2.map (fun v => clampCoord v si.width)
    y2 := a.y2.map (fun v => clampCoord v si.height) }

/-- `DeviceManager.execute_action` (device.py lines 93-136): validates the
coordinates, then dispatches on the action type.  Returns the validated
action together with the device primitives invoked. -/
def executeAction (si : ScreenInfo) (a : GameAction) : GameAction × List DeviceCall :=
  let v := validateCoordinates si a
  (v,
    match v.action with
    | .tap => [.click v.x v.y]
    | .swipe => [.swipe v.x v.y v.x2 v.y2 (v.duration.getD (1/2))]
    | .longPress => [.swipe v.x v.y v.x v.y (v.duration.getD 1)]
    | .key => [.keyevent v.key]
    | .typeText => [.sendKeys v.text]
    | .wait => []
    | .gameOver => [])

/-- A concrete 1080×1920 portrait screen. -/
def si1080 : ScreenInfo := { width := 1080, height := 1920 }

/-- A tap whose x coordinate (2000) exceeds the screen width. -/
def tapBeyondRight : GameAction := { action := .tap, x := some 2000, y := some 500 }

/-! ### Grid-cell and model-space coordinate resolution
(mobile_agent/vision_analyzer.py)

`_grid_to_pixel_with_offset` (lines 614-639) converts a grid cell
coordinate to a pixel coordinate in the model-facing scaled image.  The
random offset drawn by `random.uniform(-max_offset, max_offset)` is
abstracted as an arbitrary rational parameter — the claim is proved for
every value the random source could produce. -/

/-- `VisionAnalyzer._grid_to_pixel_with_offset` for one axis.
`gridSize // 2` is Python integer division, hence `Nat` division. -/
def gridToPixelWithOffset (gridCoord gridSize : ℕ) (offset : ℚ) : ℚ :=
  let cellCenter : ℚ := (gridCoord : ℚ) * (gridSize : ℚ) + ((gridSize / 2 : ℕ) : ℚ)
  let minBound : ℚ := (gridCoord : ℚ) * (gridSize : ℚ)
  let maxBound : ℚ := ((gridCoord : ℚ) + 1) * (gridSize : ℚ) - 1
  max minBound (min (cellCenter + offset) maxBound)

/-- Python `int()` on a rational: truncation toward zero. -/
def pyInt (q : ℚ) : ℤ :=
  if q < 0 then ⌈q⌉ else ⌊q⌋

/-- Mapping of a device-pixel coordinate into the model-facing scaled
space.  `_encode_image` (vision_analyzer.py lines 318-343) resizes the
screenshot by `scale_factor = max_width / original_width`, so a device
pixel `p` corresponds to the scaled coordinate `p * modelW / deviceW`. -/
def toModelSpace (deviceW modelW : ℕ) (p : ℤ) : ℚ :=
  (p : ℚ) * ((modelW : ℚ) / (deviceW : ℚ))

/-- `VisionAnalyzer._scale_coordinates_to_original` for one axis
(vision_analyzer.py lines 667-673): divides by `current_scale_factor`,
truncates with `int()`, and clamps into `[0, deviceW - 1]`. -/
def fromModelSpace (deviceW modelW : ℕ) (q : ℚ) : ℤ :=
  max 0 (min (pyInt (q / ((modelW : ℚ) / (deviceW : ℚ)))) ((deviceW : ℤ) - 1))

/-! ### Conversation trimming (vision.py ConversationClient)

Embeds the message/content-block shape handled by
`ConversationClient._trim_conversation`, `_message_has_image` and
`_strip_images` (vision.py lines 331-397).  A message is a role plus a
list of content blocks; a `tool_result` block carries one further level
of inner blocks.  The Python code inspects exactly one level inside
`tool_result` blocks, so the inner level is a separate non-recursive
type.  Dict entries other than the `type` discriminator and the nested
content are irrelevant to trimming and are represented by their payload
strings. -/

/-- Content block inside a `tool_result` block. -/
inductive SubBlock
  | text (s : String)
  | image (data : String)
  | other (tag : String)
deriving DecidableEq, Repr

/-- Top-level content block of a conversation message. -/
inductive Block
  | text (s : String)
  | image (data : String)
  | toolUse (tid nm : String)
  | toolResult (toolUseId : String) (content : List SubBlock) (isError : Bool)
  | other (tag : String)
deriving DecidableEq, Repr

/-- One conversation turn: a role (`"user"`/`"assistant"`) and content. -/
structure Message where
  role : String
  content : List Block
deriving DecidableEq, Repr

def subBlockIsImage : SubBlock → Bool
  | .image _ => true
  | _ => false

/-- Whether a top-level block is or contains an image
(`_message_has_image`, inner loop). -/
def blockHasImage : Block → Bool
  | .image _ => true
  | .toolResult _ inner _ => inner.any subBlockIsImage
  | _ => false

/-- `ConversationClient._message_has_image` (vision.py lines 348-363). -/
def messageHasImage (m : Message) : Bool := m.content.any blockHasImage

/-- Inner-level image replacement of `_strip_images`. -/
def stripSubBlock : SubBlock → SubBlock
  | .image _ => .text "[Screenshot removed]"
  | b => b

/-- Top-level block rewrite of `_strip_images`. -/
def stripBlock : Block → Block
  | .image _ => .text "[Screenshot removed to save context]"
  | .toolResult tid inner err => .toolResult tid (inner.map stripSubBlock) err
  | b => b

/-- `ConversationClient._strip_images` (vision.py lines 365-397):
replaces every image block of the message, at both levels, with a text
placeholder, leaving all other content in place. -/
def stripImages (m : Message) : Message :=
  { m with content := m.content.map stripBlock }

/-- In-place update of the `n`-th list element, as the Python code's
`self._strip_images(self._messages[oldest_idx])` mutation. -/
def modifyAt {α : Type} (f : α → α) : Nat → List α → List α
  | _, [] => []
  | 0, a :: as => f a :: as
  | n + 1, a :: as => a :: modifyAt f n as

/-- Indices of image-bearing messages, starting the count at `i`
(the `enumerate` loop of `_trim_conversation`). -/
def imageIndicesFrom : Nat → List Message → List Nat
  | _, [] => []
  | i, m :: ms =>
    if messageHasImage m then i :: imageIndicesFrom (i + 1) ms
    else imageIndicesFrom (i + 1) ms

/-- `image_indices` as computed by `_trim_conversation`. -/
def imageIndices (msgs : List Message) : List Nat := imageIndicesFrom 0 msgs

/-- The `while len(image_indices) > self._max_images` loop of
`_trim_conversation`: pop the oldest image-bearing index and strip that
message, until at most `maxImages` indices remain. -/
def stripWhile (maxImages : Nat) : List Nat → List Message → List Message
  | [], msgs => msgs
  | i :: rest, msgs =>
    if maxImages < (i :: rest).length then
      stripWhile maxImages rest (modifyAt stripImages i msgs)
    else msgs

/-- `ConversationClient._trim_conversation` (vision.py lines 331-346). -/
def trimConversation (maxImages : Nat) (msgs : List Message) : List Message :=
  if msgs.length ≤ 4 then msgs
  else stripWhile maxImages (imageIndices msgs) msgs

/-- A concrete conversation of 10 image-bearing turns with alternating
roles, used as witness input. -/
def msgsC5 : List Message :=
  (List.range 10).map fun i =>
    { role := if i % 2 = 0 then "user" else "assistant"
      content := [Block.image (toString i), Block.text "turn"] }

/-! ### The agent loop (agent.py AgentLoop)

The loop state mirrors the `AgentLoop` instance attributes that the
control flow reads (`_step`, `_no_change_count`, `_last_screenshot_hash`,
`_running`, `_elements`).  Screenshot capture, OmniParser parsing and the
planner are external collaborators and enter as oracles: `frameHash k`
and `frameElements k` give the hash and parsed elements of the `k`-th
stabilized capture of the session, and `planner k` the response to the
`k`-th planner call.  Screenshot saving, logging, sleeps, the foreground
guard and SIGINT handling have no effect on the verified control flow
and are elided, as is the error-recovery `try/except` of `run` (the
oracle environment never raises). -/

/-- `omniparser.UIElement` (fields read by the loop). -/
structure UIElement where
  id : ℤ
  type : String := "icon"
  content : String := ""
  bbox : List ℚ := []
  interactive : Bool := false
  centerX : ℤ := 0
  centerY : ℤ := 0
deriving DecidableEq, Repr

/-- Structured tool input; `Option` fields mirror the keys that may be
absent from the JSON dict, with `.getD` playing `dict.get(key, default)`. -/
structure ToolInput where
  elementId : Option ℤ := none
  x : Option ℤ := none
  y : Option ℤ := none
  x1 : Option ℤ := none
  y1 : Option ℤ := none
  x2 : Option ℤ := none
  y2 : Option ℤ := none
  duration : Option ℚ := none
  seconds : Option ℚ := none
  key : Option String := none
  reason : Option String := none
  reasoning : Option String := none
deriving DecidableEq, Repr

/-- `models.ToolCall`. -/
structure ToolCall where
  toolUseId : String
  toolName : String
  toolInput : ToolInput := {}
deriving DecidableEq, Repr

/-- `models.ApiResponse` (fields read by the loop). -/
structure ApiResponse where
  stopReason : String := ""
  toolCalls : List ToolCall := []
  text : String := ""
deriving DecidableEq, Repr

/-- The per-tool result dict built by `_execute_tool` and submitted by
`submit_tool_results`.  The post-action screenshot and element summary
attached in `_run_step` lines 247-251 go back to the planner verbatim and
are elided. -/
structure ToolResultM where
  toolUseId : String
  textResult : String
  isError : Bool := false
  shouldStop : Bool := false
deriving DecidableEq, Repr

/-- Python `value or default` on an optional float (`None` and `0.0` are
both falsy), as in `duration = action.duration or 0.5`. -/
def pyOrQ (o : Option ℚ) (default : ℚ) : ℚ :=
  match o with
  | none => default
  | some v => if v = 0 then default else v

/-- String form of an optional int as Python prints it
(`f-string` of `inp.get("x1")` shows `None` when absent). -/
def optIntString : Option ℤ → String
  | some v => toString v
  | none => "None"

/-- Python `str([e.id for e in elements])`. -/
def idListString (elements : List UIElement) : String :=
  "[" ++ String.intercalate ", " (elements.map fun e => toString e.id) ++ "]"

/-- The `key_map` dict of the `press_key` branch. -/
def keyMapLookup (k : String) : Option String :=
  if k = "BACK" then some "KEYCODE_BACK"
  else if k = "HOME" then some "KEYCODE_HOME"
  else if k = "ENTER" then some "KEYCODE_ENTER"
  else none

/-- `AgentLoop._execute_tool` (agent.py lines 276-419): dispatch on the
tool name; returns the result dict and the device primitives invoked.
Tap/swipe/long-press go through `executeAction` (and hence coordinate
validation); `press_key` calls `keyevent` on the raw device directly. -/
def executeTool (si : ScreenInfo) (tc : ToolCall) (elements : List UIElement) :
    ToolResultM × List DeviceCall :=
  let inp := tc.toolInput
  if tc.toolName = "tap_element" then
    let elementId := inp.elementId.getD (-1)
    match elements.find? (fun el => el.id = elementId) with
    | none =>
      ({ toolUseId := tc.toolUseId
         textResult := "Error: Element ID " ++ toString elementId ++
           " not found. Available IDs: " ++ idListString elements ++
           ". Use tap(x, y) with coordinates instead."
         isError := true }, [])
    | some element =>
      let action : GameAction :=
        { action := .tap, x := some element.centerX, y := some element.centerY
          reasoning := inp.reasoning.getD "" }
      ({ toolUseId := tc.toolUseId
         textResult := "Tapped element [" ++ toString elementId ++ "] " ++
           sq ++ element.content ++ sq ++ " at (" ++ toString element.centerX ++
           ", " ++ toString element.centerY ++ "). Here is the resulting screen." },
       (executeAction si action).2)
  else if tc.toolName = "tap" then
    let x := inp.x.getD 0
    let y := inp.y.getD 0
    let action : GameAction :=
      { action := .tap, x := some x, y := some y, reasoning := inp.reasoning.getD "" }
    ({ toolUseId := tc.toolUseId
       textResult := "Tapped at (" ++ toString x ++ ", " ++ toString y ++
         "). Here is the resulting screen." },
     (executeAction si action).2)
  else if tc.toolName = "swipe" then
    let action : GameAction :=
      { action := .swipe, x := some (inp.x1.getD 0), y := some (inp.y1.getD 0)
        x2 := some (inp.x2.getD 0), y2 := some (inp.y2.getD 0)
        duration := some (inp.duration.getD (1/2)), reasoning := inp.reasoning.getD "" }
    ({ toolUseId := tc.toolUseId
       textResult := "Swiped from (" ++ optIntString inp.x1 ++ "," ++
         optIntString inp.y1 ++ ") to (" ++ optIntString inp.x2 ++ "," ++
         optIntString inp.y2 ++ "). Here is the resulting screen." },
     (executeAction si action).2)
  else if tc.toolName = "long_press" then
    let action : GameAction :=
      { action := .longPress, x := some (inp.x.getD 0), y := some (inp.y.getD 0)
        duration := some (inp.duration.getD 1), reasoning := inp.reasoning.getD "" }
    ({ toolUseId := tc.toolUseId
       textResult := "Long pressed at (" ++ optIntString inp.x ++ ", " ++
         optIntString inp.y ++ ") for " ++ toString (inp.duration.getD 1) ++
         "s. Here is the resulting screen." },
     (executeAction si action).2)
  else if tc.toolName = "press_key" then
    let key := inp.key.getD "BACK"
    let keycode := (keyMapLookup key).getD "KEYCODE_BACK"
    ({ toolUseId := tc.toolUseId
       textResult := "Pressed " ++ key ++ " key. Here is the resulting screen." },
     [.keyevent (some keycode)])
  else if tc.toolName = "wait" then
    let waitSecs := inp.seconds.getD 2
    ({ toolUseId := tc.toolUseId
       textResult := "Waited " ++ toString waitSecs ++
         " seconds. Here is the resulting screen." }, [])
  else if tc.toolName = "game_over" then
    ({ toolUseId := tc.toolUseId
       textResult := "Game over acknowledged: " ++ (inp.reason.getD "Game ended")
       shouldStop := true }, [])
  else
    ({ toolUseId := tc.toolUseId
       textResult := "Unknown tool: " ++ tc.toolName
       isError := true }, [])

/-- Loop configuration (`loop.max_steps` plus the connected screen). -/
structure LoopConfig where
  maxSteps : Nat
  screen : ScreenInfo
deriving Repr

/-- Oracles for the external collaborators of one session. -/
structure LoopEnv where
  planner : Nat → ApiResponse
  frameHash : Nat → Nat
  frameElements : Nat → List UIElement

/-- The `AgentLoop` attributes read/written by the control flow, plus
the two oracle cursors (`captures` stable captures made, `plannerIdx`
planner calls made). -/
structure AgentState where
  step : Nat
  noChangeCount : Nat
  lastScreenshotHash : Option Nat
  running : Bool
  elements : List UIElement
  captures : Nat
  plannerIdx : Nat
deriving Repr

/-- The fixed no-change warning appended in `_run_step` lines 225-228. -/
def noChangeWarning : String :=
  " WARNING: The screen did NOT change after this action. Your target was probably wrong."

/-- The escalation sentence appended in `_run_step` lines 230-233. -/
def escalationWarning (count : Nat) : String :=
  " You have made " ++ toString count ++
    " actions with no screen change. Try a completely different approach."

/-- The screen-change detection of `_run_step` lines 223-235: on a hash
match the no-change counter is incremented and the warning (and, from 3
consecutive matches on, the escalation) appended to the result text; on
a mismatch, or when there is no previous hash, the counter resets to 0. -/
def applyChangeDetection (preHash : Option Nat) (postHash : Nat)
    (noChangeCount : Nat) (textResult : String) : Nat × String :=
  match preHash with
  | some p =>
    if postHash = p then
      let c := noChangeCount + 1
      let t := textResult ++ noChangeWarning
      if 3 ≤ c then (c, t ++ escalationWarning c) else (c, t)
    else (0, textResult)
  | none => (0, textResult)

/-- The `for tool_call in response.tool_calls` body of `_run_step`
(agent.py lines 192-262).  Returns the updated state, the accumulated
result dicts, the accumulated device calls, and whether a `should_stop`
result caused the early `return` (discarding the accumulated results). -/
def execCalls (cfg : LoopConfig) (env : LoopEnv) :
    List ToolCall → AgentState → List ToolResultM → List DeviceCall →
      AgentState × List ToolResultM × List DeviceCall × Bool
  | [], st, results, calls => (st, results, calls, false)
  | tc :: rest, st, results, calls =>
    let st1 := { st with step := st.step + 1 }
    let preHash := st1.lastScreenshotHash
    let (result, newCalls) := executeTool cfg.screen tc st1.elements
    if result.shouldStop then
      ({ st1 with running := false }, results, calls ++ newCalls, true)
    else
      let postHash := env.frameHash st1.captures
      let detected := applyChangeDetection preHash postHash st1.noChangeCount result.textResult
      let st2 := { st1 with
        noChangeCount := detected.1
        lastScreenshotHash := some postHash
        elements := env.frameElements st1.captures
        captures := st1.captures + 1 }
      let results2 := results ++ [{ result with textResult := detected.2 }]
      let calls2 := calls ++ newCalls
      if cfg.maxSteps ≤ st2.step then (st2, results2, calls2, false)
      else execCalls cfg env rest st2 results2 calls2

/-- Bounded substring test on lists (`needle in hay` for Python
strings). -/
def listContainsSub {α : Type} [DecidableEq α] : List α → List α → Bool
  | _, [] => true
  | [], _ :: _ => false
  | a :: as, b :: bs => List.isPrefixOf (b :: bs) (a :: as) || listContainsSub as (b :: bs)

/-- Python `needle in hay` on strings. -/
def strContainsSub (hay needle : String) : Bool :=
  listContainsSub hay.data needle.data

/-- `AgentLoop._send_initial_screenshot` (agent.py lines 146-164):
capture a stable frame, parse it into the element list, and send it to
the planner, obtaining the next response.  The last screenshot hash is
*not* updated here. -/
def sendInitialScreenshot (env : LoopEnv) (st : AgentState) : AgentState × ApiResponse :=
  ({ st with
      elements := env.frameElements st.captures
      captures := st.captures + 1
      plannerIdx := st.plannerIdx + 1 },
   env.planner st.plannerIdx)

/-- Result of one `_run_step` call: new state, new `_last_response`,
the tool results submitted back to the planner (empty when a
`should_stop` result returned early, before submission), and the device
primitives invoked. -/
structure StepResult where
  state : AgentState
  lastResponse : ApiResponse
  submitted : List ToolResultM
  deviceCalls : List DeviceCall

/-- `AgentLoop._run_step` (agent.py lines 166-274). -/
def runStep (cfg : LoopConfig) (env : LoopEnv) (st : AgentState) (resp : ApiResponse) :
    StepResult :=
  if resp.stopReason = "tool_use" then
    let (st', results, calls, stopped) := execCalls cfg env resp.toolCalls st [] []
    if stopped then ⟨st', resp, [], calls⟩
    else
      let results2 :=
        if cfg.maxSteps ≤ st'.step ∧ results.length < resp.toolCalls.length then
          results ++ (resp.toolCalls.drop results.length).map (fun tc =>
            { toolUseId := tc.toolUseId
              textResult := "Step limit reached. Stopping."
              isError := true })
        else results
      let newResp := env.planner st'.plannerIdx
      ⟨{ st' with plannerIdx := st'.plannerIdx + 1 }, newResp, results2, calls⟩
  else
    if strContainsSub resp.text.toLower "game over" ||
        strContainsSub resp.text.toLower "game ended" then
      ⟨{ st with running := false }, resp, [], []⟩
    else
      let (st', newResp) := sendInitialScreenshot env st
      ⟨st', newResp, [], []⟩

/-- How a session left its main loop. -/
inductive Outcome
  | completed
  | budgetExhausted
  | fuelExhausted
deriving DecidableEq, Repr

/-- Accumulated observable behaviour of a session. -/
structure SessionResult where
  state : AgentState
  toolResults : List ToolResultM
  deviceCalls : List DeviceCall
  outcome : Outcome

/-- The `while self._running and self._step < max_steps` loop of
`AgentLoop.run` (agent.py lines 123-140), with `fuel` bounding the
number of iterations. -/
def runLoop (cfg : LoopConfig) (env : LoopEnv) :
    Nat → AgentState → ApiResponse → SessionResult
  | 0, st, _ => ⟨st, [], [], .fuelExhausted⟩
  | fuel + 1, st, resp =>
    if ¬ st.running then ⟨st, [], [], .completed⟩
    else if cfg.maxSteps ≤ st.step then ⟨st, [], [], .budgetExhausted⟩
    else
      let stepRes := runStep cfg env st resp
      let s := runLoop cfg env fuel stepRes.state stepRes.lastResponse
      ⟨s.state, stepRes.submitted ++ s.toolResults,
        stepRes.deviceCalls ++ s.deviceCalls, s.outcome⟩

/-- One full session as `AgentLoop.run` drives it: fresh state, initial
screenshot, then the main loop. -/
def runSession (cfg : LoopConfig) (env : LoopEnv) (fuel : Nat) : SessionResult :=
  let st0 : AgentState :=
    { step := 0, noChangeCount := 0, lastScreenshotHash := none, running := true
      elements := [], captures := 0, plannerIdx := 0 }
  let (st1, resp1) := sendInitialScreenshot env st0
  runLoop cfg env fuel st1 resp1

/-! ### Concrete scenarios for the loop claims -/

/-- Element id 1 at center (100, 200). -/
def el1 : UIElement := { id := 1, content := "play", interactive := true, centerX := 100, centerY := 200 }

/-- Element id 2 at center (300, 400). -/
def el2 : UIElement := { id := 2, content := "menu", interactive := true, centerX := 300, centerY := 400 }

/-- Element id 3 at center (50, 60). -/
def el3 : UIElement := { id := 3, content := "a", centerX := 50, centerY := 60 }

/-- Element id 7 at center (70, 80). -/
def el7 : UIElement := { id := 7, content := "b", centerX := 70, centerY := 80 }

/-- A `tap_element` tool call. -/
def tapElementCall (tid : String) (eid : ℤ) : ToolCall :=
  { toolUseId := tid, toolName := "tap_element", toolInput := { elementId := some eid } }

/-- A coordinate `tap` tool call. -/
def tapCall (tid : String) (x y : ℤ) : ToolCall :=
  { toolUseId := tid, toolName := "tap", toolInput := { x := some x, y := some y } }

/-- A terminal-declare (`game_over`) tool call. -/
def gameOverCall (tid : String) : ToolCall :=
  { toolUseId := tid, toolName := "game_over", toolInput := { reason := some "board cleared" } }

/-- A `press_key` tool call with the given (possibly absent) key. -/
def pressKeyCall (tid : String) (k : Option String) : ToolCall :=
  { toolUseId := tid, toolName := "press_key", toolInput := { key := k } }

/-- C6 planner batch: tap element 1, tap element 2, terminal declare. -/
def respC6 : ApiResponse :=
  { stopReason := "tool_use"
    toolCalls := [tapElementCall "t1" 1, tapElementCall "t2" 2, gameOverCall "t3"] }

def envC6 : LoopEnv :=
  { planner := fun _ => respC6, frameHash := fun k => k, frameElements := fun _ => [el1, el2] }

def cfgC6 : LoopConfig := { maxSteps := 3, screen := si1080 }

/-- C6 session: step budget 3, batch tap/tap/declare. -/
def sessionC6 : SessionResult := runSession cfgC6 envC6 5

/-- C7 planner response: a single tap on the absent element id 9,
repeated forever. -/
def respC7 : ApiResponse :=
  { stopReason := "tool_use", toolCalls := [tapElementCall "t1" 9] }

def envC7 : LoopEnv :=
  { planner := fun _ => respC7, frameHash := fun k => k, frameElements := fun _ => [el3, el7] }

def cfgC7 : LoopConfig := { maxSteps := 2, screen := si1080 }

/-- C7 session: step budget 2, planner repeatedly taps absent id 9. -/
def sessionC7 : SessionResult := runSession cfgC7 envC7 5

/-- A single batch of four coordinate taps against step budget 2. -/
def respC7b : ApiResponse :=
  { stopReason := "tool_use"
    toolCalls := [tapCall "t1" 10 20, tapCall "t2" 10 20, tapCall "t3" 10 20, tapCall "t4" 10 20] }

def envC7b : LoopEnv :=
  { planner := fun _ => respC7b, frameHash := fun k => k, frameElements := fun _ => [] }

/-- C7 mid-batch session: budget exhausted inside a four-call batch. -/
def sessionC7b : SessionResult := runSession cfgC7 envC7b 5

def cfgC9 : LoopConfig := { maxSteps := 10, screen := si1080 }

/-- A batch of `n` identical coordinate taps. -/
def respC9 (n : Nat) : ApiResponse :=
  { stopReason := "tool_use"
    toolCalls := (List.range n).map fun k => tapCall (toString k) 5 6 }

/-- C9 environment: every capture hashes to the same value 7. -/
def envC9 : LoopEnv :=
  { planner := fun _ => respC9 3, frameHash := fun _ => 7, frameElements := fun _ => [] }

/-- C9 start state: the pre-action hash is already 7, so the hash
sequence seen across comparisons is 7,7,7,7. -/
def stC9 : AgentState :=
  { step := 0, noChangeCount := 0, lastScreenshotHash := some 7, running := true
    elements := [], captures := 1, plannerIdx := 1 }

/-- One `_run_step` on the C9 state with a batch of `n` taps. -/
def stepC9 (n : Nat) : StepResult := runStep cfgC9 envC9 stC9 (respC9 n)

end Andrey

namespace Andrey

/-! ## Theorems -/

/-- C1 counterexample.  With a frame source whose first two captures hash
identically and whose later captures hash to a new value,
`_capture_stable_screenshot` does *not* return after 2 polls: the code
requires `stable_count >= 2`, i.e. two consecutive matches (three
identical consecutive captures), so on this source it only returns at
poll 5 (after the new hash has itself repeated three times). -/
theorem stabilize_two_identical_then_new_not_two_polls :
    stabilizePolls hashesC1 10 ≠ some 2 ∧ stabilizePolls hashesC1 10 = some 5 := by
  constructor
  · decide
  · decide

/-- C1 amended: `_capture_stable_screenshot` returns after exactly 3 polls
whenever the first three captures hash identically; in general it polls
until the current hash has matched the previous one on two consecutive
polls (three identical consecutive captures) or the poll budget runs
out. -/
theorem stabilize_three_identical_returns_in_three_polls
    (hashes : Nat → Nat) (fuel : Nat)
    (h01 : hashes 0 = hashes 1) (h12 : hashes 1 = hashes 2) (hf : 3 ≤ fuel) :
    stabilizePolls hashes fuel = some 3 := by
  obtain ⟨k, rfl⟩ : ∃ k, fuel = k + 3 := ⟨fuel - 3, by omega⟩
  have e0 : stabilizeGo hashes (k + 3) none 0 0
      = stabilizeGo hashes (k + 2) (some (hashes 0)) 0 1 := by
    rw [show k + 3 = (k + 2) + 1 from rfl, stabilizeGo]
    simp
  have e1 : stabilizeGo hashes (k + 2) (some (hashes 0)) 0 1
      = stabilizeGo hashes (k + 1) (some (hashes 1)) 1 2 := by
    rw [show k + 2 = (k + 1) + 1 from rfl, stabilizeGo]
    simp [h01]
  have e2 : stabilizeGo hashes (k + 1) (some (hashes 1)) 1 2 = some 3 := by
    rw [show k + 1 = k + 1 from rfl, stabilizeGo]
    simp [h12]
  show stabilizeGo hashes (k + 3) none 0 0 = some 3
  rw [e0, e1, e2]

/-- Witness for the amended C1 theorem at a constant frame source. -/
theorem stabilize_three_identical_witness :
    stabilizePolls (fun _ => 7) 10 = some 3 :=
  stabilize_three_identical_returns_in_three_polls (fun _ => 7) 10 rfl rfl (by decide)

/-- C2 counterexample.  Validation clamps with `max(0, min(val, width))`,
so a tap requested at x = 2000 on a 1080-wide screen is clamped to
x = 1080 and *sent to the device* at x = 1080, which violates the claimed
strict bound `x < width`. -/
theorem validate_coordinates_can_return_width :
    (validateCoordinates si1080 tapBeyondRight).x = some 1080 ∧
      (executeAction si1080 tapBeyondRight).2 = [.click (some 1080) (some 500)] ∧
      ¬ ((1080 : ℤ) < (si1080.width : ℤ)) := by
  refine ⟨by decide, by decide, by decide⟩

/-- C2 amended: every coordinate of an action command that is present
after validation lies in the *closed* box `[0, width] × [0, height]`
(the clamp bound is the full screen dimension, not `dimension - 1`). -/
theorem validated_coordinates_in_closed_box
    (si : ScreenInfo) (a : GameAction) (v : ℤ) :
    ((validateCoordinates si a).x = some v → 0 ≤ v ∧ v ≤ (si.width : ℤ)) ∧
    ((validateCoordinates si a).y = some v → 0 ≤ v ∧ v ≤ (si.height : ℤ)) ∧
    ((validateCoordinates si a).x2 = some v → 0 ≤ v ∧ v ≤ (si.width : ℤ)) ∧
    ((validateCoordinates si a).y2 = some v → 0 ≤ v ∧ v ≤ (si.height : ℤ)) := by
  have hb : ∀ (w : ℤ) (m : ℕ), clampCoord w m = v → 0 ≤ v ∧ v ≤ (m : ℤ) := by
    intro w m hv
    unfold clampCoord at hv
    have : (0 : ℤ) ≤ (m : ℤ) := Int.natCast_nonneg m
    omega
  refine ⟨?_, ?_, ?_, ?_⟩ <;>
    · intro hx
      simp only [validateCoordinates, Option.map_eq_some'] at hx
      obtain ⟨w, _, hw⟩ := hx
      exact hb w _ hw

/-- Witness for the amended C2 theorem: the clamped out-of-range tap of
the counterexample lands inside the closed box. -/
theorem validated_coordinates_in_closed_box_witness :
    0 ≤ (1080 : ℤ) ∧ (1080 : ℤ) ≤ (si1080.width : ℤ) :=
  (validated_coordinates_in_closed_box si1080 tapBeyondRight 1080).1 (by decide)

/-- C3: for every grid cell `(cx, cy)`, positive cell size `s`, and any
offsets the random source may produce, `_grid_to_pixel_with_offset` lands
inside the cell's half-open pixel extent
`[cx*s, (cx+1)*s) × [cy*s, (cy+1)*s)`. -/
theorem grid_to_pixel_stays_in_cell
    (cx cy s : ℕ) (qx qy : ℚ) (hs : 1 ≤ s) :
    ((cx : ℚ) * s ≤ gridToPixelWithOffset cx s qx ∧
      gridToPixelWithOffset cx s qx < ((cx : ℚ) + 1) * s) ∧
    ((cy : ℚ) * s ≤ gridToPixelWithOffset cy s qy ∧
      gridToPixelWithOffset cy s qy < ((cy : ℚ) + 1) * s) := by
  have hs' : (1 : ℚ) ≤ (s : ℚ) := by exact_mod_cast hs
  have key : ∀ (c : ℕ) (q : ℚ),
      (c : ℚ) * s ≤ gridToPixelWithOffset c s q ∧
        gridToPixelWithOffset c s q < ((c : ℚ) + 1) * s := by
    intro c q
    unfold gridToPixelWithOffset
    constructor
    · exact le_max_left _ _
    · apply max_lt
      · nlinarith [Nat.cast_nonneg (α := ℚ) c]
      · calc min ((c : ℚ) * s + ((s / 2 : ℕ) : ℚ) + q) (((c : ℚ) + 1) * s - 1)
              ≤ ((c : ℚ) + 1) * s - 1 := min_le_right _ _
          _ < ((c : ℚ) + 1) * s := by linarith
  exact ⟨key cx qx, key cy qy⟩

/-- Witness for C3 at cell (2,3), cell size 20, offsets 100 and -100. -/
theorem grid_to_pixel_stays_in_cell_witness :
    (((2 : ℕ) : ℚ) * (20 : ℕ) ≤ gridToPixelWithOffset 2 20 100 ∧
      gridToPixelWithOffset 2 20 100 < (((2 : ℕ) : ℚ) + 1) * (20 : ℕ)) ∧
    (((3 : ℕ) : ℚ) * (20 : ℕ) ≤ gridToPixelWithOffset 3 20 (-100) ∧
      gridToPixelWithOffset 3 20 (-100) < (((3 : ℕ) : ℚ) + 1) * (20 : ℕ)) :=
  grid_to_pixel_stays_in_cell 2 3 20 100 (-100) (by decide)

/-- C4: mapping an in-bounds device pixel into model space and back with
`_scale_coordinates_to_original` round-trips within ±1 — in fact exactly,
because the inverse divides by the same scale factor before truncating
and clamping. -/
theorem model_space_round_trip
    (deviceW modelW : ℕ) (p : ℤ)
    (hm : 0 < modelW) (hp0 : 0 ≤ p) (hp : p < (deviceW : ℤ)) :
    fromModelSpace deviceW modelW (toModelSpace deviceW modelW p) = p ∧
      |fromModelSpace deviceW modelW (toModelSpace deviceW modelW p) - p| ≤ 1 := by
  have hd : 0 < deviceW := by
    have : (0 : ℤ) < (deviceW : ℤ) := lt_of_le_of_lt hp0 hp
    exact_mod_cast this
  have hm' : ((modelW : ℚ)) ≠ 0 := by
    exact_mod_cast Nat.pos_iff_ne_zero.mp hm
  have hd' : ((deviceW : ℚ)) ≠ 0 := by
    exact_mod_cast Nat.pos_iff_ne_zero.mp hd
  have hq : toModelSpace deviceW modelW p / ((modelW : ℚ) / (deviceW : ℚ)) = (p : ℚ) := by
    unfold toModelSpace
    field_simp
  have hfloor : pyInt ((p : ℚ)) = p := by
    unfold pyInt
    have : ¬ ((p : ℚ) < 0) := by
      exact not_lt.mpr (by exact_mod_cast hp0)
    rw [if_neg this, Int.floor_intCast]
  have heq : fromModelSpace deviceW modelW (toModelSpace deviceW modelW p) = p := by
    unfold fromModelSpace
    rw [hq, hfloor]
    omega
  exact ⟨heq, by rw [heq]; simp⟩

/-- Witness for C4 at a 1080-wide device, 200-wide model image, pixel 500. -/
theorem model_space_round_trip_witness :
    fromModelSpace 1080 200 (toModelSpace 1080 200 500) = 500 ∧
      |fromModelSpace 1080 200 (toModelSpace 1080 200 500) - 500| ≤ 1 :=
  model_space_round_trip 1080 200 500 (by decide) (by decide) (by decide)

theorem modifyAt_length {α : Type} (f : α → α) (n : Nat) (l : List α) :
    (modifyAt f n l).length = l.length := by
  induction l generalizing n with
  | nil => cases n <;> rfl
  | cons a as ih =>
    cases n with
    | zero => rfl
    | succ n => simp [modifyAt, ih]

theorem modifyAt_getElem? {α : Type} (f : α → α) (n : Nat) (l : List α) (k : Nat) :
    (modifyAt f n l)[k]? = if k = n then (l[k]?).map f else l[k]? := by
  induction l generalizing n k with
  | nil =>
    cases n <;> simp [modifyAt]
  | cons a as ih =>
    cases n with
    | zero =>
      cases k with
      | zero => simp [modifyAt]
      | succ k => simp [modifyAt]
    | succ n =>
      cases k with
      | zero => simp [modifyAt]
      | succ k => simpa [modifyAt, Nat.succ_inj] using ih n k

theorem stripWhile_of_length_le (maxImages : Nat) (idxs : List Nat)
    (msgs : List Message) (h : idxs.length ≤ maxImages) :
    stripWhile maxImages idxs msgs = msgs := by
  cases idxs with
  | nil => rfl
  | cons i rest =>
    rw [stripWhile, if_neg (show ¬ maxImages < (i :: rest).length from by omega)]

theorem imageIndicesFrom_length_le (i : Nat) (ms : List Message) :
    (imageIndicesFrom i ms).length ≤ ms.length := by
  induction ms generalizing i with
  | nil => simp [imageIndicesFrom]
  | cons m ms ih =>
    by_cases h : messageHasImage m
    · simpa [imageIndicesFrom, h] using ih (i + 1)
    · simp only [imageIndicesFrom, h, if_false, List.length_cons]
      exact le_trans (ih (i + 1)) (Nat.le_succ _)

theorem imageIndicesFrom_lower (i : Nat) (ms : List Message) :
    ∀ x ∈ imageIndicesFrom i ms, i ≤ x := by
  induction ms generalizing i with
  | nil => simp [imageIndicesFrom]
  | cons m ms ih =>
    intro x hx
    by_cases h : messageHasImage m
    · simp only [imageIndicesFrom, h, if_true, List.mem_cons] at hx
      rcases hx with rfl | hx
      · exact le_refl x
      · exact le_trans (Nat.le_succ i) (ih (i + 1) x hx)
    · simp only [imageIndicesFrom, h, if_false] at hx
      exact le_trans (Nat.le_succ i) (ih (i + 1) x hx)

theorem imageIndicesFrom_pairwise (i : Nat) (ms : List Message) :
    (imageIndicesFrom i ms).Pairwise (· < ·) := by
  induction ms generalizing i with
  | nil => simp [imageIndicesFrom]
  | cons m ms ih =>
    by_cases h : messageHasImage m
    · simp only [imageIndicesFrom, h, if_true]
      refine List.Pairwise.cons ?_ (ih (i + 1))
      intro x hx
      exact lt_of_lt_of_le (Nat.lt_succ_self i) (imageIndicesFrom_lower (i + 1) ms x hx)
    · simpa [imageIndicesFrom, h] using ih (i + 1)

theorem blockHasImage_stripBlock (b : Block) : blockHasImage (stripBlock b) = false := by
  cases b with
  | text s => rfl
  | image data => rfl
  | toolUse tid nm => rfl
  | toolResult tid inner err =>
    simp only [stripBlock, blockHasImage, List.any_map, List.any_eq_false, Function.comp]
    intro sb _
    cases sb <;> simp [stripSubBlock, subBlockIsImage]
  | other tag => rfl

theorem messageHasImage_stripImages (m : Message) :
    messageHasImage (stripImages m) = false := by
  simp only [messageHasImage, stripImages, List.any_map, List.any_eq_false, Function.comp]
  intro b _
  simp [blockHasImage_stripBlock b]

theorem imageIndicesFrom_modifyAt (i j : Nat) (ms : List Message) :
    imageIndicesFrom i (modifyAt stripImages j ms)
      = (imageIndicesFrom i ms).filter (fun x => x ≠ i + j) := by
  induction ms generalizing i j with
  | nil => cases j <;> simp [imageIndicesFrom, modifyAt]
  | cons m ms ih =>
    have hkeep : (imageIndicesFrom (i + 1) ms).filter (fun x => x ≠ i) =
        imageIndicesFrom (i + 1) ms := by
      refine List.filter_eq_self.mpr ?_
      intro x hx
      have := imageIndicesFrom_lower (i + 1) ms x hx
      simp only [ne_eq, decide_eq_true_eq]
      omega
    cases j with
    | zero =>
      show imageIndicesFrom i (stripImages m :: ms)
          = (imageIndicesFrom i (m :: ms)).filter (fun x => x ≠ i + 0)
      rw [imageIndicesFrom, imageIndicesFrom]
      rw [messageHasImage_stripImages m]
      by_cases h : messageHasImage m
      · simp only [h, if_true, Bool.false_eq_true, if_false]
        rw [show i + 0 = i from rfl]
        rw [List.filter_cons_of_neg (by simp)]
        exact hkeep.symm
      · simp only [h, Bool.false_eq_true, if_false]
        rw [show i + 0 = i from rfl]
        exact hkeep.symm
    | succ k =>
      show imageIndicesFrom i (m :: modifyAt stripImages k ms)
          = (imageIndicesFrom i (m :: ms)).filter (fun x => x ≠ i + (k + 1))
      rw [imageIndicesFrom, imageIndicesFrom]
      have harith : i + 1 + k = i + (k + 1) := by omega
      have ih' := ih (i + 1) k
      rw [harith] at ih'
      by_cases h : messageHasImage m
      · simp only [h, if_true]
        rw [List.filter_cons_of_pos (by simp)]
        rw [ih']
      · simp only [h, Bool.false_eq_true, if_false]
        exact ih'

/-- C5: for any conversation holding exactly 10 image-bearing turns,
trimming with cap 8 replaces the images of exactly the two oldest
image-bearing turns with text placeholders, leaves the number of turns,
their order, their roles and all image-free content unchanged, and
leaves exactly the configured cap of 8 image-bearing turns. -/
theorem trim_ten_images_cap_eight (msgs : List Message)
    (h : (imageIndices msgs).length = 10) :
    ∃ i0 i1 rest, imageIndices msgs = i0 :: i1 :: rest ∧
      trimConversation 8 msgs = modifyAt stripImages i1 (modifyAt stripImages i0 msgs) ∧
      (trimConversation 8 msgs).length = msgs.length ∧
      (∀ j : Nat, ((trimConversation 8 msgs)[j]?).map Message.role = (msgs[j]?).map Message.role) ∧
      (∀ j : Nat, j ≠ i0 → j ≠ i1 → (trimConversation 8 msgs)[j]? = msgs[j]?) ∧
      (trimConversation 8 msgs)[i0]? = (msgs[i0]?).map stripImages ∧
      (trimConversation 8 msgs)[i1]? = (msgs[i1]?).map stripImages ∧
      imageIndices (trimConversation 8 msgs) = rest ∧ rest.length = 8 ∧
      (∀ b : Block, blockHasImage b = false → stripBlock b = b) ∧
      (∀ sb : SubBlock, subBlockIsImage sb = false → stripSubBlock sb = sb) ∧
      (∀ m : Message, (stripImages m).role = m.role ∧
        (stripImages m).content.length = m.content.length) := by
  obtain ⟨i0, i1, rest, hEq⟩ : ∃ i0 i1 rest, imageIndices msgs = i0 :: i1 :: rest := by
    rcases hL : imageIndices msgs with _ | ⟨a, _ | ⟨b, l⟩⟩
    · rw [hL] at h; simp at h
    · rw [hL] at h; simp at h
    · exact ⟨a, b, l, rfl⟩
  have hrest : rest.length = 8 := by
    rw [hEq] at h
    simpa using h
  have hPw := imageIndicesFrom_pairwise 0 msgs
  rw [show imageIndicesFrom 0 msgs = imageIndices msgs from rfl, hEq] at hPw
  have h01 : i0 < i1 := (List.pairwise_cons.mp hPw).1 i1 (List.mem_cons_self i1 rest)
  have h0rest : ∀ x ∈ rest, i0 < x := by
    intro x hx
    exact (List.pairwise_cons.mp hPw).1 x (List.mem_cons_of_mem i1 hx)
  have h1rest : ∀ x ∈ rest, i1 < x := by
    intro x hx
    exact (List.pairwise_cons.mp (List.pairwise_cons.mp hPw).2).1 x hx
  have hmlen : 10 ≤ msgs.length := by
    have := imageIndicesFrom_length_le 0 msgs
    rw [show imageIndicesFrom 0 msgs = imageIndices msgs from rfl, h] at this
    exact this
  have htrim : trimConversation 8 msgs
      = modifyAt stripImages i1 (modifyAt stripImages i0 msgs) := by
    unfold trimConversation
    rw [if_neg (by omega), hEq]
    rw [stripWhile, if_pos (by simp [hrest])]
    rw [stripWhile, if_pos (by simp [hrest])]
    rw [stripWhile_of_length_le 8 rest _ (by omega)]
  refine ⟨i0, i1, rest, hEq, htrim, ?_, ?_, ?_, ?_, ?_, ?_, hrest, ?_, ?_, ?_⟩
  · rw [htrim, modifyAt_length, modifyAt_length]
  · intro j
    rw [htrim, modifyAt_getElem?, modifyAt_getElem?]
    by_cases hj1 : j = i1
    · subst hj1
      rw [if_pos rfl, if_neg (by omega)]
      cases msgs[j]? <;> simp [stripImages]
    · rw [if_neg hj1]
      by_cases hj0 : j = i0
      · subst hj0
        rw [if_pos rfl]
        cases msgs[j]? <;> simp [stripImages]
      · rw [if_neg hj0]
  · intro j hj0 hj1
    rw [htrim, modifyAt_getElem?, modifyAt_getElem?, if_neg hj1, if_neg hj0]
  · rw [htrim, modifyAt_getElem?, modifyAt_getElem?, if_neg (by omega), if_pos rfl]
  · rw [htrim, modifyAt_getElem?, if_pos rfl, modifyAt_getElem?, if_neg (by omega)]
  · rw [htrim]
    show imageIndicesFrom 0 (modifyAt stripImages i1 (modifyAt stripImages i0 msgs)) = rest
    rw [imageIndicesFrom_modifyAt, imageIndicesFrom_modifyAt]
    rw [show imageIndicesFrom 0 msgs = imageIndices msgs from rfl, hEq]
    rw [show (0 : Nat) + i0 = i0 from by omega, show (0 : Nat) + i1 = i1 from by omega]
    rw [List.filter_cons_of_neg (by simp)]
    rw [List.filter_cons_of_pos (by simp only [decide_eq_true_eq]; omega)]
    rw [List.filter_cons_of_neg (by simp)]
    rw [List.filter_filter]
    refine List.filter_eq_self.mpr ?_
    intro x hx
    have hx0 := h0rest x hx
    have hx1 := h1rest x hx
    simp only [Bool.and_eq_true, decide_eq_true_eq, ne_eq]
    constructor <;> omega
  · intro b hb
    cases b with
    | text s => rfl
    | image data => simp [blockHasImage] at hb
    | toolUse tid nm => rfl
    | toolResult tid inner err =>
      simp only [blockHasImage, List.any_eq_false] at hb
      simp only [stripBlock, Block.toolResult.injEq, true_and, and_true]
      conv_rhs => rw [← List.map_id inner]
      refine List.map_congr_left ?_
      intro sb hsb
      cases sb with
      | text s => rfl
      | image data => exact absurd (hb _ hsb) (by simp [subBlockIsImage])
      | other tag => rfl
    | other tag => rfl
  · intro sb hsb
    cases sb with
    | text s => rfl
    | image data => simp [subBlockIsImage] at hsb
    | other tag => rfl
  · intro m
    exact ⟨rfl, by simp [stripImages]⟩

/-- C6: a `game_over` tool call yields a `should_stop` result and no
device action, for any input and element list; in the concrete scenario
(step budget 3, planner batch tap element 1 / tap element 2 / terminal
declare) the session ends completed with exactly the 2 tap device
actions executed and the step counter at 3. -/
theorem game_over_stops_loop (si : ScreenInfo) (tc : ToolCall) (els : List UIElement)
    (h : tc.toolName = "game_over") :
    ((executeTool si tc els).1.shouldStop = true ∧ (executeTool si tc els).2 = []) ∧
      sessionC6.outcome = Outcome.completed ∧
      sessionC6.deviceCalls =
        [DeviceCall.click (some 100) (some 200), DeviceCall.click (some 300) (some 400)] ∧
      sessionC6.deviceCalls.length = 2 ∧
      sessionC6.state.step = 3 := by
  refine ⟨⟨?_, ?_⟩, by decide, by decide, by decide, by decide⟩
  · simp [executeTool, h]
  · simp [executeTool, h]

/-- Witness for C6 discharging the hypothesis at a concrete declare call. -/
theorem game_over_stops_loop_witness :
    ((executeTool si1080 (gameOverCall "t") []).1.shouldStop = true ∧
        (executeTool si1080 (gameOverCall "t") []).2 = []) ∧
      sessionC6.outcome = Outcome.completed ∧
      sessionC6.deviceCalls =
        [DeviceCall.click (some 100) (some 200), DeviceCall.click (some 300) (some 400)] ∧
      sessionC6.deviceCalls.length = 2 ∧
      sessionC6.state.step = 3 :=
  game_over_stops_loop si1080 (gameOverCall "t") [] rfl

/-- C7: with step budget 2 and a planner that repeatedly taps the absent
element id 9 against elements {3, 7}, exactly 2 resolution-error results
are recorded, no device call is made, and the session ends by budget
exhaustion; and when the budget runs out in the middle of a 4-call
batch, the 2 executed taps are followed by 2 budget-exhausted error
results with no further device action. -/
theorem budget_exhaustion_errors :
    sessionC7.outcome = Outcome.budgetExhausted ∧
      sessionC7.deviceCalls = [] ∧
      (sessionC7.toolResults.map fun r => (r.isError, r.textResult)) =
        [(true, "Error: Element ID 9 not found. Available IDs: [3, 7]. " ++
            "Use tap(x, y) with coordinates instead."),
          (true, "Error: Element ID 9 not found. Available IDs: [3, 7]. " ++
            "Use tap(x, y) with coordinates instead.")] ∧
      sessionC7b.outcome = Outcome.budgetExhausted ∧
      sessionC7b.deviceCalls.length = 2 ∧
      sessionC7b.toolResults.length = 4 ∧
      ((sessionC7b.toolResults.map fun r => (r.isError, r.textResult)).drop 2 =
        [(true, "Step limit reached. Stopping."), (true, "Step limit reached. Stopping.")]) := by
  refine ⟨by decide, by decide, by decide, by decide, by decide, by decide, by decide⟩

/-- C8: resolving a `tap_element` call whose id is absent from the
current element list produces an error result listing the valid ids,
taps nothing, and does not stop the loop. -/
theorem tap_absent_element_not_found (si : ScreenInfo) (tid : String) (eid : ℤ)
    (els : List UIElement) (h : ∀ e ∈ els, e.id ≠ eid) :
    (executeTool si (tapElementCall tid eid) els).1.isError = true ∧
      (executeTool si (tapElementCall tid eid) els).1.textResult =
        "Error: Element ID " ++ toString eid ++ " not found. Available IDs: " ++
          idListString els ++ ". Use tap(x, y) with coordinates instead." ∧
      (executeTool si (tapElementCall tid eid) els).2 = [] ∧
      (executeTool si (tapElementCall tid eid) els).1.shouldStop = false := by
  have hfind : els.find? (fun el => el.id = eid) = none := by
    refine List.find?_eq_none.mpr ?_
    intro e he
    simp only [decide_eq_true_eq]
    exact h e he
  refine ⟨?_, ?_, ?_, ?_⟩ <;>
    simp [executeTool, tapElementCall, hfind]

/-- Witness for C8 at elements {3, 7} and requested id 5. -/
theorem tap_absent_element_not_found_witness :
    (executeTool si1080 (tapElementCall "t" 5) [el3, el7]).1.isError = true ∧
      (executeTool si1080 (tapElementCall "t" 5) [el3, el7]).1.textResult =
        "Error: Element ID " ++ toString (5 : ℤ) ++ " not found. Available IDs: " ++
          idListString [el3, el7] ++ ". Use tap(x, y) with coordinates instead." ∧
      (executeTool si1080 (tapElementCall "t" 5) [el3, el7]).2 = [] ∧
      (executeTool si1080 (tapElementCall "t" 5) [el3, el7]).1.shouldStop = false :=
  tap_absent_element_not_found si1080 "t" 5 [el3, el7] (by decide)

/-- C9: with hash sequence 7,7,7,7 (pre-action hash 7 and every capture
hashing to 7) the no-change counter reaches 1, 2, 3 after batches of 1,
2, 3 actions — hitting the escalation threshold 3 on the third
comparison, whose tool result carries the escalation warning while the
first two carry only the plain warning; any comparison of differing
hashes (or with no previous hash) resets the counter to 0. -/
theorem no_change_counter_escalates (pre post c : Nat) (t : String) (h : post ≠ pre) :
    applyChangeDetection (some pre) post c t = (0, t) ∧
      applyChangeDetection none post c t = (0, t) ∧
      (stepC9 1).state.noChangeCount = 1 ∧
      (stepC9 2).state.noChangeCount = 2 ∧
      (stepC9 3).state.noChangeCount = 3 ∧
      ((stepC9 3).submitted.map fun r => r.textResult) =
        ["Tapped at (5, 6). Here is the resulting screen." ++ noChangeWarning,
          "Tapped at (5, 6). Here is the resulting screen." ++ noChangeWarning,
          "Tapped at (5, 6). Here is the resulting screen." ++ noChangeWarning ++
            escalationWarning 3] := by
  refine ⟨?_, rfl, by decide, by decide, by decide, by decide⟩
  simp [applyChangeDetection, h]

/-- Witness for C9 at the differing hash pair (5, 4). -/
theorem no_change_counter_escalates_witness :
    applyChangeDetection (some 4) 5 6 "r" = (0, "r") ∧
      applyChangeDetection none 5 6 "r" = (0, "r") ∧
      (stepC9 1).state.noChangeCount = 1 ∧
      (stepC9 2).state.noChangeCount = 2 ∧
      (stepC9 3).state.noChangeCount = 3 ∧
      ((stepC9 3).submitted.map fun r => r.textResult) =
        ["Tapped at (5, 6). Here is the resulting screen." ++ noChangeWarning,
          "Tapped at (5, 6). Here is the resulting screen." ++ noChangeWarning,
          "Tapped at (5, 6). Here is the resulting screen." ++ noChangeWarning ++
            escalationWarning 3] :=
  no_change_counter_escalates 4 5 6 "r" (by decide)

/-- C10: a `press_key` call with a key outside {BACK, HOME, ENTER}, or
with no key at all, does not fail: it falls back to sending the BACK
keycode to the device and returns a non-error result. -/
theorem press_key_unknown_falls_back (si : ScreenInfo) (tid : String)
    (els : List UIElement) (k : String)
    (h1 : k ≠ "BACK") (h2 : k ≠ "HOME") (h3 : k ≠ "ENTER") :
    ((executeTool si (pressKeyCall tid (some k)) els).1.isError = false ∧
        (executeTool si (pressKeyCall tid (some k)) els).1.shouldStop = false ∧
        (executeTool si (pressKeyCall tid (some k)) els).2 =
          [DeviceCall.keyevent (some "KEYCODE_BACK")] ∧
        (executeTool si (pressKeyCall tid (some k)) els).1.textResult =
          "Pressed " ++ k ++ " key. Here is the resulting screen.") ∧
      ((executeTool si (pressKeyCall tid none) els).1.isError = false ∧
        (executeTool si (pressKeyCall tid none) els).2 =
          [DeviceCall.keyevent (some "KEYCODE_BACK")]) := by
  refine ⟨⟨?_, ?_, ?_, ?_⟩, ?_, ?_⟩ <;>
    simp [executeTool, pressKeyCall, keyMapLookup, h1, h2, h3]

/-- Witness for C10 at the unknown key VOLUME_UP. -/
theorem press_key_unknown_falls_back_witness :
    ((executeTool si1080 (pressKeyCall "t" (some "VOLUME_UP")) []).1.isError = false ∧
        (executeTool si1080 (pressKeyCall "t" (some "VOLUME_UP")) []).1.shouldStop = false ∧
        (executeTool si1080 (pressKeyCall "t" (some "VOLUME_UP")) []).2 =
          [DeviceCall.keyevent (some "KEYCODE_BACK")] ∧
        (executeTool si1080 (pressKeyCall "t" (some "VOLUME_UP")) []).1.textResult =
          "Pressed " ++ "VOLUME_UP" ++ " key. Here is the resulting screen.") ∧
      ((executeTool si1080 (pressKeyCall "t" none) []).1.isError = false ∧
        (executeTool si1080 (pressKeyCall "t" none) []).2 =
          [DeviceCall.keyevent (some "KEYCODE_BACK")]) :=
  press_key_unknown_falls_back si1080 "t" [] "VOLUME_UP"
    (by decide) (by decide) (by decide)

/-- Witness for C5 at a concrete 10-turn conversation. -/
theorem trim_ten_images_cap_eight_witness :
    (imageIndices msgsC5).length = 10 ∧
      (∃ i0 i1 rest, imageIndices msgsC5 = i0 :: i1 :: rest ∧
        trimConversation 8 msgsC5 = modifyAt stripImages i1 (modifyAt stripImages i0 msgsC5) ∧
        (trimConversation 8 msgsC5).length = msgsC5.length ∧
        (∀ j : Nat, ((trimConversation 8 msgsC5)[j]?).map Message.role = (msgsC5[j]?).map Message.role) ∧
        (∀ j : Nat, j ≠ i0 → j ≠ i1 → (trimConversation 8 msgsC5)[j]? = msgsC5[j]?) ∧
        (trimConversation 8 msgsC5)[i0]? = (msgsC5[i0]?).map stripImages ∧
        (trimConversation 8 msgsC5)[i1]? = (msgsC5[i1]?).map stripImages ∧
        imageIndices (trimConversation 8 msgsC5) = rest ∧ rest.length = 8 ∧
        (∀ b : Block, blockHasImage b = false → stripBlock b = b) ∧
        (∀ sb : SubBlock, subBlockIsImage sb = false → stripSubBlock sb = sb) ∧
        (∀ m : Message, (stripImages m).role = m.role ∧
          (stripImages m).content.length = m.content.length)) :=
  ⟨by decide, trim_ten_images_cap_eight msgsC5 (by decide)⟩

end Andrey
